import Mathlib

set_option maxRecDepth 100000

/-!
Verification of the chat-route orchestration pipeline
(`src/app/api/chat/route.ts`, exported handler `POST`).

The pipeline is embedded shallowly: JavaScript strings are Lean `String`s
(operated on through their character lists, so everything reduces in the
kernel), the conversation history is a `List Message`, and the external
collaborators (moderation classifier, the OpenAI-backed analyzers, the
completion backend) are oracle parameters, matching the spec's stance that
only their input/output contracts are in scope.  Truthiness checks on the
JavaScript side (`meta.fileContent`, `meta.fileSize`, `denialMessage || d`)
are modelled explicitly: an absent field is `none` and a falsy string/number
is `""`/`0`.
-/

namespace ChatRoute

/-! ## Character-list string primitives

All string scanning from the source (`includes`, `startsWith`, `endsWith`,
`toLowerCase`, the analysis-intent regex, `split(',')[1]`) is defined
structurally over `List Char` so that concrete instances evaluate by
`decide`. -/

/-- Lower-case a character list (ASCII case folding, as the source strings
are ASCII). -/
def lowerL (l : List Char) : List Char := l.map Char.toLower

/-- The token `tok` occurs at the head of `s`. -/
def headMatch : List Char → List Char → Bool
  | [], _ => true
  | _ :: _, [] => false
  | t :: ts, c :: cs => t == c && headMatch ts cs

/-- The token `tok` occurs as a contiguous substring of `s`
(JS `String.includes`). -/
def containsL (tok : List Char) : List Char → Bool
  | [] => headMatch tok []
  | c :: rest => headMatch tok (c :: rest) || containsL tok rest

/-- The list `s` ends with `tok` (JS `String.endsWith`). -/
def endsWithL (tok s : List Char) : Bool :=
  headMatch tok.reverse s.reverse

/-- JS `String.includes` on Lean strings. -/
def includesS (tok s : String) : Bool := containsL tok.data s.data

/-- A word character in the sense of the JS regex class `\w`:
`[A-Za-z0-9_]`. -/
def wordChar (c : Char) : Bool := c.isAlphanum || c == '_'

/-- One scan step of the word-bounded token matcher: `prevWord` records
whether the character to the left of the current position is a word
character (false at the start of the string).  Matches the JS pattern
`\btok\b` for a token made of word characters. -/
def wbTokenAux (tok : List Char) : Bool → List Char → Bool
  | _, [] => false
  | prevWord, c :: rest =>
    (!prevWord && headMatch tok (c :: rest) &&
      (match (c :: rest).drop tok.length with
       | [] => true
       | d :: _ => !wordChar d)) ||
    wbTokenAux tok (wordChar c) rest

/-- The token `tok` occurs word-bounded (`\btok\b`) in `s`. -/
def wbToken (tok : List Char) (s : List Char) : Bool :=
  wbTokenAux tok false s

/-! ## Analysis-intent test

Source, `route.ts` line 290/315:
`/analyz|analyze|analysis|\bocr\b|\b(3)\b/i.test(latestUserText)`.
`RegExp.test` of a top-level alternation is the disjunction of the tests of
the alternatives; the `i` flag is modelled by lower-casing the subject
(the alternatives are already lower case). -/
def wantsAnalyze (t : String) : Bool :=
  let l := lowerL t.data
  containsL "analyz".data l || containsL "analyze".data l ||
    containsL "analysis".data l ||
    wbToken "ocr".data l || wbToken "3".data l

/-! ## Data model -/

inductive Role where
  | user
  | assistant
  deriving DecidableEq, Repr

/-- One content part of a turn.  `type` is the JS `part.type` tag; `text` is
`some s` when the part has a string `text` field (the source's
`hasTextPart`), `none` otherwise. -/
structure Part where
  type : String
  text : Option String
  deriving DecidableEq, Repr

/-- The optional attachment metadata record on a turn.  Absent fields are
`none`. -/
structure FileMeta where
  fileName : Option String
  fileType : Option String
  fileSize : Option Nat
  fileContent : Option String
  deriving DecidableEq, Repr

/-- One turn of the conversation history.  `parts` is `none` when the JS
`parts` field is not an array (`Array.isArray` fails). -/
structure Message where
  role : Role
  parts : Option (List Part)
  metadata : Option FileMeta
  deriving DecidableEq, Repr

/-- Source `extractTextFromParts` (route.ts lines 16-22): keep parts whose `type`
is `"text"` and that carry a string `text` field, and concatenate their
texts with no separator. -/
def partText (p : Part) : Option String :=
  match p.text with
  | some s => if p.type = "text" then some s else none
  | none => none

def extractTextFromParts : Option (List Part) → String
  | none => ""
  | some ps => String.join (ps.filterMap partText)

/-- Result of the external moderation classifier `isContentFlagged`. -/
structure ModResult where
  flagged : Bool
  denialMessage : Option String
  deriving DecidableEq, Repr

/-- Fixed configuration imported by the route (`MODEL` from `@/config`,
`SYSTEM_PROMPT` from `@/prompts`); their values live outside the core, so
the pipeline is parameterised over them. -/
structure Env where
  systemPrompt : String
  model : String
  deriving DecidableEq, Repr

/-- The external collaborators, as oracles over the data the route hands
them: the moderation classifier on the concatenated latest-user text, and
the three analyzers on (decoded payload body, file name [, mime]).  Each
analyzer returns the final text the route will stream (the source catches
its own failures and turns them into text, so a failure message is just
another oracle value). -/
structure Oracles where
  moderate : String → ModResult
  pdfAnalysis : String → String → String
  imageAnalysis : String → String → String → String
  textAnalysis : String → String → String

/-! ## Response-emitter events -/

inductive Event where
  | start
  | textStart (id : String)
  | textDelta (id : String) (delta : String)
  | textEnd (id : String)
  | finish
  deriving DecidableEq, Repr

/-- The event bracket every synthesized branch writes (route.ts lines
234-249, 293-307, 364-378): `start`, one `text-start`/`text-delta`/
`text-end` triple with a shared id, `finish`. -/
def emitSingle (id msg : String) : List Event :=
  [Event.start, Event.textStart id, Event.textDelta id msg,
   Event.textEnd id, Event.finish]

/-- Well-formedness of a synthesized stream as claimed: exactly one `start`
first, exactly one `text-start`/`text-delta`/`text-end` triple sharing one
id, one `finish` last, and nothing else. -/
def wellBracket : List Event → Bool
  | [Event.start, Event.textStart i1, Event.textDelta i2 _,
     Event.textEnd i3, Event.finish] => i1 == i2 && i2 == i3
  | _ => false

/-- The parameters of the fall-through `streamText` call (route.ts lines
386-407) together with the `toUIMessageStreamResponse` option. -/
structure EngineCall where
  model : String
  system : String
  messages : List Message
  toolNames : List String
  maxSteps : Nat
  reasoningSummary : String
  reasoningEffort : String
  parallelToolCalls : Bool
  sendReasoning : Bool
  deriving DecidableEq, Repr

/-- The outcome of one request: either a synthesized event stream or a
handoff to the completion engine. -/
inductive RouteResult where
  | synthesized (events : List Event)
  | engine (call : EngineCall)
  deriving DecidableEq, Repr

/-! ## Moderation gate (route.ts lines 225-253) -/

/-- Source expression `messages.filter((msg) => msg.role === 'user').pop()`. -/
def latestUserMessage (msgs : List Message) : Option Message :=
  (msgs.filter (fun m => m.role = Role.user)).getLast?

/-- The fixed default denial string (route.ts line 244). -/
def defaultDenial : String :=
  "Your message violates our guidelines. I can\x27t answer that."

/-- Source expression `moderationResult.denialMessage || default`: JS `||` falls back on a
missing OR empty (falsy) message. -/
def denialText (mr : ModResult) : String :=
  match mr.denialMessage with
  | some s => if s = "" then defaultDenial else s
  | none => defaultDenial

/-- The moderation stage: `some events` when the gate fires and the request
terminates with the synthesized denial, `none` when control passes on.  The
classifier is only consulted when the latest user turn exists and its
concatenated text is non-empty (truthy). -/
def moderationGate (o : Oracles) (msgs : List Message) : Option (List Event) :=
  match latestUserMessage msgs with
  | none => none
  | some lu =>
    let t := extractTextFromParts lu.parts
    if t = "" then none
    else
      let mr := o.moderate t
      if mr.flagged then
        some (emitSingle "moderation-denial-text" (denialText mr))
      else none

/-! ## Attachment detection and acknowledgment (route.ts lines 255-315) -/

/-- Truthiness of `meta.fileContent`: present and non-empty. -/
def metaContentTruthy (meta : FileMeta) : Bool :=
  match meta.fileContent with
  | some s => !(s == "")
  | none => false

/-- The loop guard `m && m.metadata && m.metadata.fileContent`. -/
def hasFileContent (m : Message) : Bool :=
  match m.metadata with
  | some meta => metaContentTruthy meta
  | none => false

/-- The backwards scan (route.ts lines 258-265): the message with the
GREATEST index whose metadata carries a truthy `fileContent`, together with
that index. -/
def findFileMsg : List Message → Option (Nat × Message)
  | [] => none
  | m :: rest =>
    match findFileMsg rest with
    | some (j, fm) => some (j + 1, fm)
    | none => if hasFileContent m then some (0, m) else none

/-- Source expressions `meta.fileName || 'uploaded-file'` and `meta.fileType || 'unknown'`:
JS `||` falls back on a missing or empty string. -/
def truthyOr (o : Option String) (d : String) : String :=
  match o with
  | some s => if s = "" then d else s
  | none => d

/-- JS `Math.round(n / 1024)` computed exactly on naturals:
`round(n/1024) = floor((n + 512) / 1024)`. -/
def jsRoundKB (n : Nat) : Nat := (n + 512) / 1024

/-- Source expression `meta.fileSize ? Math.round(meta.fileSize / 1024) : 'unknown'`
(route.ts line 276), interpolated into the acknowledgment message: a
declared size of `0` is falsy and renders as `"unknown"`. -/
def sizeKBLabel : Option Nat → String
  | some n => if n = 0 then "unknown" else Nat.repr (jsRoundKB n)
  | none => "unknown"

/-- The literal acknowledgment marker searched for in later assistant
turns. -/
def ackMarker (fileName : String) : String :=
  "Received \"" ++ fileName ++ "\""

/-- One assistant message contains the acknowledgment marker (route.ts
lines 280-282).  Note the part scan uses only `hasTextPart` — any part with
a string `text` field counts, whatever its `type`. -/
def msgHasAck (fileName : String) (m : Message) : Bool :=
  m.role = Role.assistant &&
    match m.parts with
    | some ps => ps.any (fun p =>
        match p.text with
        | some t => includesS (ackMarker fileName) t
        | none => false)
    | none => false

/-- Source expression `messages.slice(fileMessageIndex + 1).some(...)`. -/
def ackExistsAfter (msgs : List Message) (i : Nat) (fileName : String) : Bool :=
  (msgs.drop (i + 1)).any (msgHasAck fileName)

/-- Source expression `messages.slice(fileMessageIndex + 1).filter((m) => m.role === 'user')`. -/
def usersAfter (msgs : List Message) (i : Nat) : List Message :=
  (msgs.drop (i + 1)).filter (fun m => m.role = Role.user)

/-- Concatenated text of the latest follow-up user turn after the anchor,
`''` when there is none. -/
def latestFollowUpText (msgs : List Message) (i : Nat) : String :=
  match (usersAfter msgs i).getLast? with
  | some m => extractTextFromParts m.parts
  | none => ""

/-- The acknowledgment-menu message (route.ts line 301). -/
def ackMessage (fileName sizeKB mime : String) : String :=
  "Received \"" ++ fileName ++ "\" (" ++ sizeKB ++ " KB, " ++ mime ++
    "). I can (1) summarize text, (2) run OCR, (3) analyze images, or (4) extract tables. What would you like me to do with this file?"

/-! ## Payload decoding and analyzer dispatch (route.ts lines 317-362) -/

/-- Characters of a comma-separated split segment: everything up to the
next comma. -/
def upToComma : List Char → List Char
  | [] => []
  | c :: rest => if c = ',' then [] else c :: upToComma rest

/-- Everything strictly after the first comma. -/
def afterFirstComma : List Char → List Char
  | [] => []
  | c :: rest => if c = ',' then rest else afterFirstComma rest

/-- Source expression `base64WithPrefix.includes(',') ? base64WithPrefix.split(',')[1]
: base64WithPrefix` (route.ts line 320): when the payload contains any
comma, `split(',')[1]` is the segment between the first comma and the next
one (or the end); otherwise the payload is taken whole.  The `data:` prefix
is never consulted. -/
def base64Body (payload : String) : String :=
  if containsL ",".data payload.data then
    String.mk (upToComma (afterFirstComma payload.data))
  else payload

/-- The PDF test (route.ts line 327):
`mimeLC === 'application/pdf' || fileName.toLowerCase().endsWith('.pdf')`. -/
def pdfShape (mime fileName : String) : Bool :=
  lowerL mime.data == "application/pdf".data ||
    endsWithL ".pdf".data (lowerL fileName.data)

/-- The image test (route.ts line 330): `mimeLC.startsWith('image/') ||
['.png', '.jpg', '.jpeg', '.webp'].some(ext => fileName.toLowerCase().endsWith(ext))`. -/
def imageShape (mime fileName : String) : Bool :=
  headMatch "image/".data (lowerL mime.data) ||
    [".png", ".jpg", ".jpeg", ".webp"].any
      (fun ext => endsWithL ext.data (lowerL fileName.data))

/-- The plain-text test (route.ts line 333): `mimeLC === 'text/plain' ||
fileName.toLowerCase().endsWith('.txt') || mimeLC === 'text/csv'`. -/
def textShape (mime fileName : String) : Bool :=
  lowerL mime.data == "text/plain".data ||
    endsWithL ".txt".data (lowerL fileName.data) ||
    lowerL mime.data == "text/csv".data

inductive AnalyzerBranch where
  | pdf
  | image
  | plainText
  | unsupported
  deriving DecidableEq, Repr

/-- The analyzer dispatch chain (route.ts lines 327-362), in source
order: PDF, then image, then plain text, else the unsupported fallback. -/
def dispatchBranch (mime fileName : String) : AnalyzerBranch :=
  if pdfShape mime fileName then AnalyzerBranch.pdf
  else if imageShape mime fileName then AnalyzerBranch.image
  else if textShape mime fileName then AnalyzerBranch.plainText
  else AnalyzerBranch.unsupported

/-- The unsupported-type message (route.ts line 361); no external call is
made on this branch. -/
def unsupportedMessage (mime : String) : String :=
  "I don\x27t have a direct extractor for files of type " ++ mime ++
    ". If this is a PDF use the PDF channel; otherwise you can paste the text or convert to txt."

/-- The text streamed by the analysis branch: the matching analyzer oracle
on the decoded body, or the locally computed unsupported message. -/
def analysisTextFor (o : Oracles) (meta : FileMeta) (mime fileName : String) :
    String :=
  let body := base64Body (meta.fileContent.getD "")
  match dispatchBranch mime fileName with
  | AnalyzerBranch.pdf => o.pdfAnalysis body fileName
  | AnalyzerBranch.image => o.imageAnalysis body fileName mime
  | AnalyzerBranch.plainText => o.textAnalysis body fileName
  | AnalyzerBranch.unsupported => unsupportedMessage mime

/-! ## The full pipeline -/

def emptyMeta : FileMeta :=
  { fileName := none, fileType := none, fileSize := none, fileContent := none }

/-- The fall-through `streamText` call (route.ts lines 386-407): fixed
system prompt, both named tools, `stopWhen: stepCountIs(10)`,
`parallelToolCalls: false`, reasoning included at low effort, and
`sendReasoning: true` on the response adapter. -/
def engineCallOf (env : Env) (msgs : List Message) : EngineCall :=
  { model := env.model
    system := env.systemPrompt
    messages := msgs
    toolNames := ["webSearch", "vectorDatabaseSearch"]
    maxSteps := 10
    reasoningSummary := "auto"
    reasoningEffort := "low"
    parallelToolCalls := false
    sendReasoning := true }

/-- The attachment flow once an anchor `fm` at index `i` is found
(route.ts lines 267-384).  The source's nested conditionals flatten to:
emit the acknowledgment iff not acknowledged AND no analysis intent AND no
follow-up user turn; otherwise run the analyzer iff the latest follow-up
requests analysis and the payload is truthy; otherwise fall through. -/
def fileFlow (env : Env) (o : Oracles) (msgs : List Message) (i : Nat)
    (fm : Message) : RouteResult :=
  let meta := fm.metadata.getD emptyMeta
  let fileName := truthyOr meta.fileName "uploaded-file"
  let mime := truthyOr meta.fileType "unknown"
  if !ackExistsAfter msgs i fileName &&
      !wantsAnalyze (latestFollowUpText msgs i) &&
      ((usersAfter msgs i).getLast?).isNone then
    RouteResult.synthesized
      (emitSingle "file-received-text"
        (ackMessage fileName (sizeKBLabel meta.fileSize) mime))
  else if wantsAnalyze (latestFollowUpText msgs i) &&
      metaContentTruthy meta then
    RouteResult.synthesized
      (emitSingle "file-analysis-text" (analysisTextFor o meta mime fileName))
  else
    RouteResult.engine (engineCallOf env msgs)

/-- The request handler `POST` (route.ts lines 222-408): moderation gate,
then attachment tracking, then the completion-engine fall-through. -/
def POST (env : Env) (o : Oracles) (msgs : List Message) : RouteResult :=
  match moderationGate o msgs with
  | some evs => RouteResult.synthesized evs
  | none =>
    match findFileMsg msgs with
    | some (i, fm) => fileFlow env o msgs i fm
    | none => RouteResult.engine (engineCallOf env msgs)

/-! ## Concrete fixtures used by counterexamples and witnesses -/

def envT : Env := { systemPrompt := "SYSTEM_PROMPT", model := "MODEL" }

/-- An always-clean classifier and constant analyzers. -/
def oracleClean : Oracles :=
  { moderate := fun _ => { flagged := false, denialMessage := none }
    pdfAnalysis := fun _ fn => "PDF analysis of " ++ fn
    imageAnalysis := fun _ fn _ => "Image analysis of " ++ fn
    textAnalysis := fun _ fn => "Text analysis of " ++ fn }

/-- A classifier that flags everything, with no denial message. -/
def oracleFlagged : Oracles :=
  { oracleClean with
    moderate := fun _ => { flagged := true, denialMessage := none } }

/-- A classifier that flags everything and supplies the EMPTY denial
message. -/
def oracleFlaggedEmpty : Oracles :=
  { oracleClean with
    moderate := fun _ => { flagged := true, denialMessage := some "" } }

/-- A plain user turn with one text part. -/
def userMsg (t : String) : Message :=
  { role := Role.user
    parts := some [{ type := "text", text := some t }]
    metadata := none }

/-- A plain assistant turn with one text part. -/
def assistantMsg (t : String) : Message :=
  { role := Role.assistant
    parts := some [{ type := "text", text := some t }]
    metadata := none }

/-- A user turn carrying the attachment `doc.pdf` (2048 declared bytes). -/
def fileMsg0 : Message :=
  { role := Role.user
    parts := some [{ type := "text", text := some "here is my file" }]
    metadata := some
      { fileName := some "doc.pdf"
        fileType := some "application/pdf"
        fileSize := some 2048
        fileContent := some "data:application/pdf;base64,QUJD" } }

/-! ## Claim-side comparison definitions

These follow the CLAIMS' wording (not the source) and exist only to be
compared against the source-derived definitions above. -/

/-- Claimed characterization of analysis intent: substring `"analyz"`
(said to subsume `"analyze"` and `"analysis"`), word-bounded `"ocr"`, or
word-bounded `"3"`, case-insensitively. -/
def wantsAnalyzeClaimed (t : String) : Bool :=
  let l := lowerL t.data
  containsL "analyz".data l || wbToken "ocr".data l || wbToken "3".data l

/-- JS whitespace for `String.trim`, restricted to the common ASCII
whitespace involved here. -/
def isWS (c : Char) : Bool :=
  c == ' ' || c == '\t' || c == '\n' || c == '\r'

/-- Trim leading and trailing whitespace from a character list. -/
def trimL (l : List Char) : List Char :=
  ((l.dropWhile isWS).reverse.dropWhile isWS).reverse

/-- Claimed dispatch: PDF, then image, then "the attachment's bytes are
UTF-8 decoded and treated as plain text if non-empty after trimming",
else unsupported.  `decoded` is the UTF-8 decode of the payload bytes. -/
def dispatchBranchClaimed (mime fileName decoded : String) : AnalyzerBranch :=
  if pdfShape mime fileName then AnalyzerBranch.pdf
  else if imageShape mime fileName then AnalyzerBranch.image
  else if !(trimL decoded.data).isEmpty then AnalyzerBranch.plainText
  else AnalyzerBranch.unsupported

/-- Claimed decode step: split on the first comma only under a `data:`
prefix; otherwise decode the whole payload. -/
def base64BodyClaimed (payload : String) : String :=
  if headMatch "data:".data payload.data then
    String.mk (upToComma (afterFirstComma payload.data))
  else payload

/-! ## Fixture histories -/

/-- Unacknowledged attachment followed by a non-analysis user turn. -/
def msgsC1 : List Message := [fileMsg0, userMsg "hello"]

/-- Attachment, its acknowledgment, then a non-analysis user turn. -/
def msgsC5 : List Message :=
  [fileMsg0, assistantMsg (ackMessage "doc.pdf" "2" "application/pdf"),
   userMsg "thanks"]

/-! ## Helper lemmas -/

theorem headMatch_of_append (t1 t2 s : List Char)
    (h : headMatch (t1 ++ t2) s = true) : headMatch t1 s = true := by
  induction t1 generalizing s with
  | nil => rfl
  | cons a ts ih =>
    cases s with
    | nil => simp [headMatch] at h
    | cons c cs =>
      simp only [List.cons_append, headMatch, Bool.and_eq_true] at h ⊢
      exact ⟨h.1, ih cs h.2⟩

theorem containsL_of_append (t1 t2 l : List Char)
    (h : containsL (t1 ++ t2) l = true) : containsL t1 l = true := by
  induction l with
  | nil => exact headMatch_of_append t1 t2 [] h
  | cons c cs ih =>
    simp only [containsL, Bool.or_eq_true] at h ⊢
    rcases h with h | h
    · exact Or.inl (headMatch_of_append _ _ _ h)
    · exact Or.inr (ih h)

theorem contains_analyze_imp (l : List Char)
    (h : containsL "analyze".data l = true) :
    containsL "analyz".data l = true := by
  have he : "analyze".data = "analyz".data ++ "e".data := by decide
  rw [he] at h
  exact containsL_of_append _ _ _ h

/-- A stream emitted through `emitSingle` is well formed. -/
theorem wellBracket_emitSingle (id s : String) :
    wellBracket (emitSingle id s) = true := by
  simp [emitSingle, wellBracket]

/-- Any firing of the moderation gate emits the single denial bracket. -/
theorem moderationGate_emit (o : Oracles) (msgs : List Message)
    (evs : List Event) (h : moderationGate o msgs = some evs) :
    ∃ s, evs = emitSingle "moderation-denial-text" s := by
  simp only [moderationGate] at h
  split at h
  · exact absurd h (by simp)
  · split at h
    · exact absurd h (by simp)
    · split at h
      · exact ⟨_, (Option.some.injEq _ _).mp h |>.symm⟩
      · exact absurd h (by simp)

/-- The attachment flow produces either a single synthesized bracket or
the engine call. -/
theorem fileFlow_shape (env : Env) (o : Oracles) (msgs : List Message)
    (i : Nat) (fm : Message) :
    (∃ id s, fileFlow env o msgs i fm =
      RouteResult.synthesized (emitSingle id s)) ∨
    fileFlow env o msgs i fm = RouteResult.engine (engineCallOf env msgs) := by
  simp only [fileFlow]
  split
  · exact Or.inl ⟨_, _, rfl⟩
  · split
    · exact Or.inl ⟨_, _, rfl⟩
    · exact Or.inr rfl

/-- Fall-through lemma: moderation clean, an anchor found, the
acknowledgment condition false and no analysis intent give the engine
call. -/
theorem engine_fallThrough (env : Env) (o : Oracles) (msgs : List Message)
    (i : Nat) (fm : Message)
    (hmod : moderationGate o msgs = none)
    (hfind : findFileMsg msgs = some (i, fm))
    (hcond : (!ackExistsAfter msgs i
        (truthyOr (fm.metadata.getD emptyMeta).fileName "uploaded-file") &&
        !wantsAnalyze (latestFollowUpText msgs i) &&
        ((usersAfter msgs i).getLast?).isNone) = false)
    (hw : wantsAnalyze (latestFollowUpText msgs i) = false) :
    POST env o msgs = RouteResult.engine (engineCallOf env msgs) := by
  simp only [POST, hmod, hfind, fileFlow]
  rw [hcond, hw]
  simp

/-! ## Additional lemmas for the payload-decode claim -/

theorem contains_comma_append (a b : List Char) :
    containsL [','] (a ++ ',' :: b) = true := by
  induction a with
  | nil => simp [containsL, headMatch]
  | cons c cs ih => simp [containsL, ih]

theorem afterFirstComma_append (a b : List Char)
    (ha : containsL ",".data a = false) :
    afterFirstComma (a ++ ',' :: b) = b := by
  induction a with
  | nil => simp [afterFirstComma]
  | cons c cs ih =>
    have h1 : (',' == c) = false ∧ containsL ",".data cs = false := by
      simpa [containsL, headMatch] using ha
    have hc : ¬(c = ',') := by
      intro h
      subst h
      simp at h1
    simp [afterFirstComma, hc, ih h1.2]

/-! ## The claims -/

/-- Claim C1, counterexample.  A history whose anchor attachment is
unacknowledged and whose follow-up user turn says "hello" (no analysis
intent) does NOT get the acknowledgment prompt: the pipeline hands off to
the completion engine.  The claim's decision-table row
(unacknowledged, follow-up exists, no intent → emit prompt) is false on
the code, whose guard is `!wantsAnalyzeNow && !latestUserAfter`. -/
theorem C1_counterexample :
    findFileMsg msgsC1 = some (0, fileMsg0) ∧
    ackExistsAfter msgsC1 0 "doc.pdf" = false ∧
    (usersAfter msgsC1 0).getLast? = some (userMsg "hello") ∧
    wantsAnalyze (latestFollowUpText msgsC1 0) = false ∧
    POST envT oracleClean msgsC1 =
      RouteResult.engine (engineCallOf envT msgsC1) := by decide

/-- Claim C1, amended.  For every moderation-clean history whose anchor
attachment turn is not yet acknowledged and that has at least one
follow-up user turn whose concatenated text does not match the
analysis-intent pattern, the pipeline emits NO acknowledgment prompt and
falls through to the completion engine; the prompt is reserved for
histories with no follow-up user turn at all. -/
theorem C1_amended (env : Env) (o : Oracles) (msgs : List Message)
    (i : Nat) (fm u : Message)
    (hmod : moderationGate o msgs = none)
    (hfind : findFileMsg msgs = some (i, fm))
    (hack : ackExistsAfter msgs i
      (truthyOr (fm.metadata.getD emptyMeta).fileName "uploaded-file") = false)
    (hfu : (usersAfter msgs i).getLast? = some u)
    (hw : wantsAnalyze (latestFollowUpText msgs i) = false) :
    POST env o msgs = RouteResult.engine (engineCallOf env msgs) := by
  refine engine_fallThrough env o msgs i fm hmod hfind ?_ hw
  rw [hack, hw, hfu]
  rfl

/-- Claim C1, witness for the amended theorem at the fixture history. -/
theorem C1_amended_witness :
    POST envT oracleClean msgsC1 =
      RouteResult.engine (engineCallOf envT msgsC1) :=
  C1_amended envT oracleClean msgsC1 0 fileMsg0 (userMsg "hello")
    (by decide) (by decide) (by decide) (by decide) (by decide)

/-- Claim C2.  Every synthesized terminal path of the pipeline — the
moderation denial, the acknowledgment prompt, and every analysis or
per-branch failure text — emits exactly one well-formed bracket: `start`
first, one `text-start`/`text-delta`/`text-end` triple sharing one id,
`finish` last, and nothing else. -/
theorem C2_bracket_invariant (env : Env) (o : Oracles) (msgs : List Message)
    (evs : List Event)
    (h : POST env o msgs = RouteResult.synthesized evs) :
    wellBracket evs = true := by
  simp only [POST] at h
  split at h
  · rename_i evs2 heq
    injection h with h
    subst h
    obtain ⟨s, hs⟩ := moderationGate_emit o msgs evs2 heq
    rw [hs]
    exact wellBracket_emitSingle _ _
  · rename_i heq
    split at h
    · rename_i p i fm hfind
      rcases fileFlow_shape env o msgs i fm with ⟨id, s, hfs⟩ | hfs
      · rw [hfs] at h
        injection h with h
        rw [← h]
        exact wellBracket_emitSingle _ _
      · rw [hfs] at h
        exact absurd h (by simp)
    · exact absurd h (by simp)

/-- Claim C2, witness: a concrete synthesized run (the acknowledgment of
`doc.pdf`) is well bracketed. -/
theorem C2_bracket_witness :
    wellBracket
      (emitSingle "file-received-text"
        (ackMessage "doc.pdf" "2" "application/pdf")) = true :=
  C2_bracket_invariant envT oracleClean [fileMsg0]
    (emitSingle "file-received-text"
      (ackMessage "doc.pdf" "2" "application/pdf")) (by decide)

/-- Claim C3, counterexample.  When the classifier flags the turn and
supplies the EMPTY denial message, the emitted delta is the fixed default
denial — the JS fallback `denialMessage || default` is truthiness-based —
contradicting the claim that the default is used only when the classifier
supplied none. -/
theorem C3_counterexample :
    (oracleFlaggedEmpty.moderate "hi").flagged = true ∧
    (oracleFlaggedEmpty.moderate "hi").denialMessage = some "" ∧
    defaultDenial ≠ "" ∧
    POST envT oracleFlaggedEmpty [userMsg "hi"] =
      RouteResult.synthesized
        (emitSingle "moderation-denial-text" defaultDenial) := by decide

/-- Claim C3, amended.  For every history whose most recent user turn has
non-empty concatenated text that the classifier flags, the output is
exactly one bracket whose single delta is the classifier's denial message,
falling back to the fixed default when the classifier supplied none OR an
empty message; no later pipeline stage runs (the result is fully
determined by the moderation stage). -/
theorem C3_amended (env : Env) (o : Oracles) (msgs : List Message)
    (lu : Message)
    (hl : latestUserMessage msgs = some lu)
    (ht : extractTextFromParts lu.parts ≠ "")
    (hf : (o.moderate (extractTextFromParts lu.parts)).flagged = true) :
    POST env o msgs =
      RouteResult.synthesized
        (emitSingle "moderation-denial-text"
          (denialText (o.moderate (extractTextFromParts lu.parts)))) := by
  simp only [POST, moderationGate, hl]
  simp [ht, hf]

/-- Claim C3, witness for the amended theorem on a flagged single-turn
history. -/
theorem C3_amended_witness :
    POST envT oracleFlagged [userMsg "bad"] =
      RouteResult.synthesized
        (emitSingle "moderation-denial-text"
          (denialText (oracleFlagged.moderate
            (extractTextFromParts (userMsg "bad").parts)))) :=
  C3_amended envT oracleFlagged [userMsg "bad"] (userMsg "bad")
    (by decide) (by decide) (by decide)

/-- Claim C4, counterexample.  The text "analysis" matches the source
pattern (alternative `analysis`) but contains no substring "analyz", no
word-bounded "ocr" and no word-bounded "3" — so "analyz" does not subsume
"analysis" and the claimed characterization disagrees with the code. -/
theorem C4_counterexample :
    wantsAnalyze "analysis" = true ∧
    wantsAnalyzeClaimed "analysis" = false := by decide

/-- Claim C4, amended.  Analysis intent is true exactly when the text,
case-insensitively, contains the substring "analyz" (which subsumes
"analyze" but NOT "analysis") or the substring "analysis", or the
word-bounded token "ocr", or the word-bounded token "3". -/
theorem C4_amended (t : String) :
    wantsAnalyze t =
      (containsL "analyz".data (lowerL t.data) ||
       containsL "analysis".data (lowerL t.data) ||
       wbToken "ocr".data (lowerL t.data) ||
       wbToken "3".data (lowerL t.data)) := by
  simp only [wantsAnalyze]
  cases hb : containsL "analyze".data (lowerL t.data) with
  | false => simp [hb]
  | true =>
    have ha := contains_analyze_imp _ hb
    simp [ha]

/-- Claim C5.  For every moderation-clean history whose anchor attachment
already has the literal acknowledgment marker in a later assistant turn,
and whose latest follow-up user text does not request analysis, the
pipeline never re-emits the acknowledgment: it hands off to the completion
engine. -/
theorem C5_idempotent_ack (env : Env) (o : Oracles) (msgs : List Message)
    (i : Nat) (fm : Message)
    (hmod : moderationGate o msgs = none)
    (hfind : findFileMsg msgs = some (i, fm))
    (hack : ackExistsAfter msgs i
      (truthyOr (fm.metadata.getD emptyMeta).fileName "uploaded-file") = true)
    (hw : wantsAnalyze (latestFollowUpText msgs i) = false) :
    POST env o msgs = RouteResult.engine (engineCallOf env msgs) := by
  refine engine_fallThrough env o msgs i fm hmod hfind ?_ hw
  rw [hack]
  rfl

/-- Claim C5, witness: the already-acknowledged fixture history falls
through to the engine. -/
theorem C5_idempotent_ack_witness :
    POST envT oracleClean msgsC5 =
      RouteResult.engine (engineCallOf envT msgsC5) :=
  C5_idempotent_ack envT oracleClean msgsC5 0 fileMsg0
    (by decide) (by decide) (by decide) (by decide)

/-- Claim C6, counterexample.  An attachment that is neither PDF- nor
image-shaped and whose bytes decode to non-empty UTF-8 text goes to the
claimed plain-text branch, but the code's third branch tests only declared
MIME type (`text/plain`, `text/csv`) and `.txt` extension — it never
inspects the bytes — so the code returns the unsupported message. -/
theorem C6_counterexample :
    dispatchBranch "application/octet-stream" "notes.md" =
      AnalyzerBranch.unsupported ∧
    dispatchBranchClaimed "application/octet-stream" "notes.md" "hello" =
      AnalyzerBranch.plainText := by decide

/-- Claim C6, amended.  The dispatch checks branches in fixed precedence:
PDF (MIME exactly `application/pdf` or name ending `.pdf`) first — so an
attachment satisfying both the PDF and image shapes takes the document
branch; then image (MIME prefix `image/` or a common image extension);
then plain text selected by DECLARED type only (MIME `text/plain` or
`text/csv`, or name ending `.txt`), with the decoded bytes never
inspected; otherwise the unsupported-type message with no external
call. -/
theorem C6_amended (mime fileName : String) :
    (pdfShape mime fileName = true →
      dispatchBranch mime fileName = AnalyzerBranch.pdf) ∧
    (pdfShape mime fileName = false → imageShape mime fileName = true →
      dispatchBranch mime fileName = AnalyzerBranch.image) ∧
    (pdfShape mime fileName = false → imageShape mime fileName = false →
      textShape mime fileName = true →
      dispatchBranch mime fileName = AnalyzerBranch.plainText) ∧
    (pdfShape mime fileName = false → imageShape mime fileName = false →
      textShape mime fileName = false →
      dispatchBranch mime fileName = AnalyzerBranch.unsupported) := by
  refine ⟨fun h1 => ?_, fun h1 h2 => ?_, fun h1 h2 h3 => ?_,
    fun h1 h2 h3 => ?_⟩
  · simp [dispatchBranch, h1]
  · simp [dispatchBranch, h1, h2]
  · simp [dispatchBranch, h1, h2, h3]
  · simp [dispatchBranch, h1, h2, h3]

/-- Claim C6, witness: an attachment shaped as BOTH a PDF (by MIME) and an
image (by `.png` extension) takes the document branch. -/
theorem C6_amended_witness :
    pdfShape "application/pdf" "scan.png" = true ∧
    imageShape "application/pdf" "scan.png" = true ∧
    dispatchBranch "application/pdf" "scan.png" = AnalyzerBranch.pdf :=
  ⟨by decide, by decide,
    (C6_amended "application/pdf" "scan.png").1 (by decide)⟩

/-- Claim C7, counterexample.  The payload `"abc,def"` carries no `data:`
prefix yet IS split at its comma: the code keys the split on the presence
of a comma, not on a `data:` prefix, so the claimed whole-string decode
disagrees with the code. -/
theorem C7_counterexample :
    headMatch "data:".data "abc,def".data = false ∧
    base64Body "abc,def" = "def" ∧
    base64BodyClaimed "abc,def" = "abc,def" ∧
    base64Body "abc,def" ≠ base64BodyClaimed "abc,def" := by decide

/-- Claim C7, amended.  The decode-to-bytes step never consults any
`data:` prefix: whenever the payload contains a comma it takes the segment
between the first comma and the next comma (or the end) — JS
`split(',')[1]` — and only a comma-free payload is base64-decoded
whole. -/
theorem C7_amended :
    (∀ s : String, containsL ",".data s.data = false → base64Body s = s) ∧
    (∀ a b : List Char, containsL ",".data a = false →
      base64Body (String.mk (a ++ ',' :: b)) = String.mk (upToComma b)) := by
  constructor
  · intro s h
    simp [base64Body, h]
  · intro a b ha
    simp only [base64Body]
    rw [contains_comma_append a b, afterFirstComma_append a b ha]
    simp

/-- Claim C7, witness: a comma-free head `"abc"` followed by `",def,x"`
decodes to the segment `"def"` between the first two commas. -/
theorem C7_amended_witness :
    base64Body (String.mk ("abc".data ++ ',' :: "def,x".data)) =
      String.mk (upToComma "def,x".data) :=
  C7_amended.2 "abc".data "def,x".data (by decide)

/-- Claim C8.  Every moderation-clean history with no anchor attachment —
or an anchor that is already acknowledged with no pending analysis
request — reaches the completion engine configured with the fixed system
prompt, both named tools, a step bound of exactly 10, and concurrent tool
calls disabled (with the reasoning trace streamed at low effort). -/
theorem C8_engine_config (env : Env) (o : Oracles) (msgs : List Message)
    (hmod : moderationGate o msgs = none)
    (hres : findFileMsg msgs = none ∨
      ∃ i fm, findFileMsg msgs = some (i, fm) ∧
        ackExistsAfter msgs i
          (truthyOr (fm.metadata.getD emptyMeta).fileName "uploaded-file") =
          true ∧
        wantsAnalyze (latestFollowUpText msgs i) = false) :
    POST env o msgs =
      RouteResult.engine
        { model := env.model
          system := env.systemPrompt
          messages := msgs
          toolNames := ["webSearch", "vectorDatabaseSearch"]
          maxSteps := 10
          reasoningSummary := "auto"
          reasoningEffort := "low"
          parallelToolCalls := false
          sendReasoning := true } := by
  rcases hres with h | ⟨i, fm, hfind, hack, hw⟩
  · simp only [POST, hmod, h]
    rfl
  · have := engine_fallThrough env o msgs i fm hmod hfind
      (by rw [hack]; rfl) hw
    exact this

/-- Claim C8, witness: the single-turn history `[user: "hello"]` reaches
the engine with the fixed configuration. -/
theorem C8_engine_config_witness :
    POST envT oracleClean [userMsg "hello"] =
      RouteResult.engine
        { model := envT.model
          system := envT.systemPrompt
          messages := [userMsg "hello"]
          toolNames := ["webSearch", "vectorDatabaseSearch"]
          maxSteps := 10
          reasoningSummary := "auto"
          reasoningEffort := "low"
          parallelToolCalls := false
          sendReasoning := true } :=
  C8_engine_config envT oracleClean [userMsg "hello"] (by decide)
    (Or.inl (by decide))

/-- Claim C9.  In the acknowledgment prompt, a strictly positive declared
`fileSize` renders as `Math.round(fileSize / 1024)` (computed exactly:
`(n + 512) / 1024`, i.e. floor plus carry at a half), while a declared
size of `0` — like an absent size — renders as `"unknown"`, because the
size check is truthiness-based. -/
theorem C9_size_label :
    (∀ n : Nat, 0 < n → sizeKBLabel (some n) = Nat.repr (jsRoundKB n)) ∧
    sizeKBLabel (some 0) = "unknown" ∧
    sizeKBLabel none = "unknown" ∧
    (∀ n : Nat, (n % 1024 < 512 → jsRoundKB n = n / 1024) ∧
      (512 ≤ n % 1024 → jsRoundKB n = n / 1024 + 1)) := by
  refine ⟨?_, rfl, rfl, ?_⟩
  · intro n hn
    simp [sizeKBLabel, hn.ne']
  · intro n
    constructor <;> intro h <;> simp only [jsRoundKB] <;> omega

/-- Claim C9, witness: a declared size of 2048 bytes renders as the
rounded kibibyte count. -/
theorem C9_size_label_witness :
    0 < 2048 ∧ sizeKBLabel (some 2048) = Nat.repr (jsRoundKB 2048) :=
  ⟨by decide, C9_size_label.1 2048 (by decide)⟩

/-- Claim C10.  The anchor-attachment scan never consults the turn's role:
relabelling every role in the history leaves the selected index unchanged
(and selects the same turn up to its relabelled role), so an assistant
turn carrying attachment metadata is chosen exactly as a user turn would
be. -/
theorem C10_role_blind_anchor (msgs : List Message) (f : Role → Role) :
    findFileMsg (msgs.map (fun m => { m with role := f m.role })) =
      (findFileMsg msgs).map
        (fun p => (p.1, { p.2 with role := f p.2.role })) := by
  induction msgs with
  | nil => rfl
  | cons m rest ih =>
    cases hr : findFileMsg rest with
    | some p =>
      obtain ⟨j, fm⟩ := p
      simp [findFileMsg, ih, hr]
    | none =>
      have hm : hasFileContent { m with role := f m.role } =
          hasFileContent m := rfl
      simp only [List.map, findFileMsg, ih, hr, Option.map_none, hm]
      cases hasFileContent m <;> simp

end ChatRoute

/-- Sanity: the matcher behaves like the JS regex on word boundaries. -/
example : ChatRoute.wbToken "ocr".data "run ocr now".data = true := by decide

example : ChatRoute.wbToken "3".data "33".data = false := by decide

example : ChatRoute.wbToken "3".data "pick 3 please".data = true := by decide

example : ChatRoute.containsL "analyz".data "analysis".data = false := by decide

/-- Sanity: a lone attachment turn gets the acknowledgment menu. -/
example :
    ChatRoute.POST ChatRoute.envT ChatRoute.oracleClean [ChatRoute.fileMsg0] =
      ChatRoute.RouteResult.synthesized
        (ChatRoute.emitSingle "file-received-text"
          (ChatRoute.ackMessage "doc.pdf" "2" "application/pdf")) := by decide

/-- Sanity: a non-analysis follow-up after an unacknowledged attachment
falls through to the engine. -/
example :
    ChatRoute.POST ChatRoute.envT ChatRoute.oracleClean
        [ChatRoute.fileMsg0, ChatRoute.userMsg "hello"] =
      ChatRoute.RouteResult.engine
        (ChatRoute.engineCallOf ChatRoute.envT
          [ChatRoute.fileMsg0, ChatRoute.userMsg "hello"]) := by decide

/-- Sanity: an analysis request routes the PDF to the document analyzer. -/
example :
    ChatRoute.POST ChatRoute.envT ChatRoute.oracleClean
        [ChatRoute.fileMsg0, ChatRoute.userMsg "please analyze this"] =
      ChatRoute.RouteResult.synthesized
        (ChatRoute.emitSingle "file-analysis-text"
          ("PDF analysis of " ++ "doc.pdf")) := by decide

/-- Sanity: a flagged latest user turn is denied with the default text. -/
example :
    ChatRoute.POST ChatRoute.envT ChatRoute.oracleFlagged
        [ChatRoute.userMsg "bad"] =
      ChatRoute.RouteResult.synthesized
        (ChatRoute.emitSingle "moderation-denial-text"
          ChatRoute.defaultDenial) := by decide
